import Mathlib

/-!
Verification development for the Monado compositor frame-pacing / renderer
coordination subsystem and the Rift driver helpers.

The definitions below are a shallow embedding of the C sources:
 - `comp_renderer` (draw, acquire, present, submit, fences, wait-for-present),
 - `comp_window_peek_blit`,
 - `chl_scratch_ensure` / `chl_scratch_free_resources`,
 - `rift_hmd_compute_distortion` and `rift_send_report`.

External collaborators that are not part of the repository sources (the target
backend behind the `comp_target` function-pointer table, the Vulkan driver,
`os_monotonic_get_ns`, the pacing helper) are modelled as oracles: lists of
results consumed in call order, with a benign default when the list is
exhausted.  State mutated by the code is threaded explicitly.  C `assert`
macros are modelled by setting an `assertFailed` flag (release-build
semantics: execution continues).
-/

namespace Monado

/-- VkResult values distinguished by the embedded code paths. -/
inductive VkResult where
  | success
  | suboptimalKHR
  | errorOutOfDateKHR
  | errorDeviceLost
  | errorExtensionNotPresent
  deriving DecidableEq, Repr

/-- xrt_result_t values distinguished by the embedded code paths. -/
inductive XrtResult where
  | success
  | errorVulkan
  | errorOther
  deriving DecidableEq, Repr

/-- Timing points marked via comp_target_mark_* (thin wrappers over the
target's mark_timing_point operation, see target_mark_timing_point in
comp_window_debug_image.c). The timestamp argument is not modelled. -/
inductive TimingPoint where
  | wakeUp
  | begin
  | submitBegin
  | submitEnd
  deriving DecidableEq, Repr

/-- One pacing frame, the data of a comp_frame lifecycle slot.
Modelled from the spec: comp_frame.h is not under src; the spec (section 3,
Frame) lists the carried fields and the 64-bit id. -/
structure Frame where
  id : Int
  desiredPresentTimeNs : Int
  presentSlopNs : Int
  predictedDisplayTimeNs : Int
  deriving DecidableEq, Repr

/-- Combined state of the renderer coordinator: the comp_renderer fields, the
two comp_frame lifecycle slots, the backend oracles and an observable trace. -/
structure Sys where
  /-- Results of successive comp_target_check_ready calls (default true). -/
  oCheckReady : List Bool
  /-- Results of successive comp_target_acquire calls: status and the value
  left in the out index (default success, 0). -/
  oAcquire : List (VkResult × Nat)
  /-- Results of successive comp_target_present calls (default success). -/
  oPresent : List VkResult
  /-- Results of successive render_distortion_images_ensure calls. -/
  oDistortion : List Bool
  /-- Results of successive vk_cmd_submit_locked calls. -/
  oSubmit : List VkResult
  /-- Results of successive comp_target_wait_for_present calls. -/
  oWaitPresent : List VkResult
  /-- Values returned by successive os_monotonic_get_ns reads (only the two
  reads bracketing the wait in renderer_wait_for_present are modelled). -/
  oClock : List Int
  /-- Results of successive comp_mirror_do_blit calls. -/
  oMirror : List XrtResult
  /-- comp_settings::use_compute, fixed per process. -/
  useCompute : Bool
  /-- comp_target::wait_for_present_supported. -/
  waitForPresentSupported : Bool
  /-- Whether comp_mirror_is_ready_and_active returns true this frame. -/
  mirrorReady : Bool
  /-- Whether c->peek is non-null (XRT_FEATURE_WINDOW_PEEK build). -/
  peekEnabled : Bool
  /-- comp_renderer::acquired_buffer. -/
  acquiredBuffer : Int
  /-- comp_renderer::fenced_buffer. -/
  fencedBuffer : Int
  /-- comp_renderer::buffer_count. -/
  bufferCount : Nat
  /-- Whether comp_target_has_images returns true (target->images set). -/
  targetHasImages : Bool
  /-- comp_target::image_count as set by the backend on create_images. -/
  targetImageCount : Nat
  /-- The waited frame slot, c->frame.waited; none models an invalid slot. -/
  waited : Option Frame
  /-- The rendering frame slot, c->frame.rendering. -/
  rendering : Option Frame
  /-- Trace: timing points marked, in order, with their frame id. -/
  marks : List (TimingPoint × Int)
  /-- Trace: number of comp_target_create_images calls. -/
  createImagesCount : Nat
  /-- Trace: number of comp_target_acquire calls. -/
  acquireCount : Nat
  /-- Trace: buffer indices waited on via vkWaitForFences, in order. -/
  fenceWaits : List Int
  /-- Trace: frame ids passed to vk_cmd_submit_locked, in order. -/
  submitted : List Int
  /-- Trace: (buffer index, frame id) of comp_target_present calls. -/
  presented : List (Int × Int)
  /-- Trace: whether the missed-frame warning was logged. -/
  warned : Bool
  /-- Trace: whether any C assert fired. -/
  assertFailed : Bool
  deriving DecidableEq, Repr

/-!  Oracle-consuming wrappers, named after the calls they model.  -/

/-- comp_target_check_ready: pop the next readiness result. -/
def comp_target_check_ready (s : Sys) : Bool × Sys :=
  (s.oCheckReady.headD true, { s with oCheckReady := s.oCheckReady.tail })

/-- comp_target_acquire: pop the next (status, out index) pair. -/
def comp_target_acquire (s : Sys) : VkResult × Nat × Sys :=
  let r := s.oAcquire.headD (VkResult.success, 0)
  (r.1, r.2, { s with oAcquire := s.oAcquire.tail, acquireCount := s.acquireCount + 1 })

/-- comp_target_present: pop the next present status and record the call. -/
def comp_target_present (s : Sys) (index : Int) (frameId : Int) : VkResult × Sys :=
  (s.oPresent.headD VkResult.success,
   { s with oPresent := s.oPresent.tail, presented := s.presented ++ [(index, frameId)] })

/-- comp_target_create_images: record the call; the backend then has images. -/
def comp_target_create_images (s : Sys) : Sys :=
  { s with createImagesCount := s.createImagesCount + 1, targetHasImages := true }

/-- comp_target_mark_* delegation into the pacing helper: record the point. -/
def comp_target_mark_point (s : Sys) (p : TimingPoint) (frameId : Int) : Sys :=
  { s with marks := s.marks ++ [(p, frameId)] }

/-- render_distortion_images_ensure: pop the next success flag. -/
def render_distortion_images_ensure (s : Sys) : Bool × Sys :=
  (s.oDistortion.headD true, { s with oDistortion := s.oDistortion.tail })

/-- vk_cmd_submit_locked: pop the next submit status and record the frame id. -/
def vk_cmd_submit_locked (s : Sys) (frameId : Int) : VkResult × Sys :=
  (s.oSubmit.headD VkResult.success,
   { s with oSubmit := s.oSubmit.tail, submitted := s.submitted ++ [frameId] })

/-- comp_target_wait_for_present: pop the next wait status. -/
def comp_target_wait_for_present (s : Sys) : VkResult × Sys :=
  (s.oWaitPresent.headD VkResult.success, { s with oWaitPresent := s.oWaitPresent.tail })

/-- os_monotonic_get_ns: pop the next clock value. -/
def os_monotonic_get_ns (s : Sys) : Int × Sys :=
  (s.oClock.headD 0, { s with oClock := s.oClock.tail })

/-- comp_mirror_do_blit: pop the next mirror blit result. -/
def comp_mirror_do_blit (s : Sys) : XrtResult × Sys :=
  (s.oMirror.headD XrtResult.success, { s with oMirror := s.oMirror.tail })

/-!  comp_frame lifecycle slot operations.  -/

/-- Modelled from the spec: comp_frame.h is not under src.  A slot is invalid
when it holds no frame (spec section 4.1, is_invalid / is_valid). -/
def comp_frame_is_invalid (f : Option Frame) : Bool :=
  f.isNone

/-- Modelled from the spec: comp_frame.h is not under src.  move_and_clear
transfers the waited frame into the rendering slot and invalidates the source;
it is a programming-contract failure (assert) if the destination is already
valid (spec section 4.1, move_and_clear). -/
def comp_frame_move_and_clear (s : Sys) : Sys :=
  let s := if s.rendering.isSome then { s with assertFailed := true } else s
  { s with rendering := s.waited, waited := none }

/-- Modelled from the spec: comp_frame.h is not under src.  clear marks the
slot invalid (spec section 4.1, clear). -/
def comp_frame_clear_rendering (s : Sys) : Sys :=
  { s with rendering := none }

/-- The id of the frame in the rendering slot; -1 when the slot is invalid,
matching the cleared frame id the asserts test for. -/
def renderingFrameId (s : Sys) : Int :=
  (s.rendering.map Frame.id).getD (-1)

/-!  comp_renderer functions, translated from comp_window_debug_image.c
(the part of that file holding the compositor rendering code).  -/

/-- renderer_close_renderings_and_fences: free the target resource and fence
arrays and reset the buffer bookkeeping. -/
def renderer_close_renderings_and_fences (s : Sys) : Sys :=
  { s with bufferCount := 0, acquiredBuffer := -1, fencedBuffer := -1 }

/-- renderer_ensure_images_and_renderings: ensure target images and the
dependent renderings exist, recreating them when forced.  Returns true when
images and renderings are ready.  The queue-idle wait before recreation has no
modelled effect. -/
def renderer_ensure_images_and_renderings (s : Sys) (forceRecreate : Bool) : Bool × Sys :=
  let c := comp_target_check_ready s
  if !c.1 then
    (false, c.2)
  else
    let s := c.2
    let create := forceRecreate || !s.targetHasImages || s.bufferCount == 0
    if !create then
      (true, s)
    else
      let s := renderer_close_renderings_and_fences s
      let s := comp_target_create_images s
      let d := render_distortion_images_ensure s
      if !d.1 then
        (false, d.2)
      else
        let s := d.2
        let s := { s with bufferCount := s.targetImageCount }
        let s := if s.targetImageCount == 0 then { s with assertFailed := true } else s
        (true, s)

/-- renderer_acquire_swapchain_image: acquire the next target image; on an
out-of-date or suboptimal status force one recreation and retry the acquire
once.  Errors are only logged. -/
def renderer_acquire_swapchain_image (s : Sys) : Sys :=
  let s := if 0 ≤ s.acquiredBuffer then { s with assertFailed := true } else s
  let e := renderer_ensure_images_and_renderings s false
  if !e.1 then
    e.2
  else
    let a := comp_target_acquire e.2
    if a.1 = VkResult.errorOutOfDateKHR ∨ a.1 = VkResult.suboptimalKHR then
      let e2 := renderer_ensure_images_and_renderings a.2.2 true
      if !e2.1 then
        e2.2
      else
        let a2 := comp_target_acquire e2.2
        { a2.2.2 with acquiredBuffer := Int.ofNat a2.2.1 }
    else
      { a.2.2 with acquiredBuffer := Int.ofNat a.2.1 }

/-- renderer_resize: if the target is not ready only close the existing
renderings, otherwise force a recreation. -/
def renderer_resize (s : Sys) : Sys :=
  let c := comp_target_check_ready s
  if !c.1 then
    renderer_close_renderings_and_fences c.2
  else
    (renderer_ensure_images_and_renderings c.2 true).2

/-- renderer_present_swapchain_image: present the acquired buffer; an
out-of-date or suboptimal status triggers the resize path, other errors are
only logged. -/
def renderer_present_swapchain_image (s : Sys) : Sys :=
  let s := if comp_frame_is_invalid s.rendering then { s with assertFailed := true } else s
  let p := comp_target_present s s.acquiredBuffer (renderingFrameId s)
  let s := { p.2 with acquiredBuffer := -1 }
  if p.1 = VkResult.errorOutOfDateKHR ∨ p.1 = VkResult.suboptimalKHR then
    renderer_resize s
  else
    s

/-- renderer_wait_for_last_fence: wait on the fence of the previously
submitted buffer, if any, then forget it. -/
def renderer_wait_for_last_fence (s : Sys) : Sys :=
  if s.fencedBuffer < 0 then
    s
  else
    { s with fenceWaits := s.fenceWaits ++ [s.fencedBuffer], fencedBuffer := -1 }

/-- renderer_submit_queue: wait on the last fence, reset the acquired buffer's
fence, mark submit begin, submit the work, mark submit end; on success the
acquired buffer becomes the fenced buffer. -/
def renderer_submit_queue (s : Sys) : VkResult × Sys :=
  let frameId := renderingFrameId s
  let s := if frameId < 0 then { s with assertFailed := true } else s
  let s := renderer_wait_for_last_fence s
  let s := if s.acquiredBuffer < 0 then { s with assertFailed := true } else s
  let s := comp_target_mark_point s TimingPoint.submitBegin frameId
  let sub := vk_cmd_submit_locked s frameId
  let s := comp_target_mark_point sub.2 TimingPoint.submitEnd frameId
  if sub.1 ≠ VkResult.success then
    (sub.1, s)
  else
    (sub.1, { s with fencedBuffer := s.acquiredBuffer })

/-- dispatch_graphics and dispatch_compute both build the per-frame view,
pose and viewport data (no modelled effect) and end in renderer_submit_queue;
the target resource lookup at a negative acquired buffer is the contract
violation checked inside renderer_submit_queue. -/
def dispatch (s : Sys) : VkResult × Sys :=
  renderer_submit_queue s

/-- The 1ms threshold U_TIME_1MS_IN_NS. -/
def U_TIME_1MS_IN_NS : Int := 1000000

/-- renderer_wait_for_present: wait for the previous present to be shown,
either via the backend's wait (result swallowed) or, when unsupported, via an
eager acquire of the next image; warn when the wait took more than 1ms and the
completion time is more than 1ms past the desired present time. -/
def renderer_wait_for_present (s : Sys) (desiredPresentTimeNs : Int) : Sys :=
  let c := comp_target_check_ready s
  if !c.1 then
    c.2
  else
    let t0 := os_monotonic_get_ns c.2
    let beforeNs := t0.1
    let s :=
      if t0.2.waitForPresentSupported then
        let w := comp_target_wait_for_present t0.2
        if w.1 = VkResult.errorExtensionNotPresent then { w.2 with assertFailed := true } else w.2
      else
        renderer_acquire_swapchain_image t0.2
    let t1 := os_monotonic_get_ns s
    let afterNs := t1.1
    if beforeNs + U_TIME_1MS_IN_NS < afterNs ∧ desiredPresentTimeNs + U_TIME_1MS_IN_NS < afterNs then
      { t1.2 with warned := true }
    else
      t1.2

/-- The entry of comp_renderer_draw: the two frame-slot asserts followed by
the move of the waited frame into the rendering slot. -/
def comp_renderer_draw_prelude (s : Sys) : Sys :=
  let s := if comp_frame_is_invalid s.waited then { s with assertFailed := true } else s
  let s := if !comp_frame_is_invalid s.rendering then { s with assertFailed := true } else s
  comp_frame_move_and_clear s

/-- The not-ready short circuit of comp_renderer_draw: emulate rendering for
the timing by marking submit begin and end, then clear the rendering frame. -/
def comp_renderer_draw_not_ready (s : Sys) (frameId : Int) : Sys :=
  let s := comp_target_mark_point s TimingPoint.submitBegin frameId
  let s := comp_target_mark_point s TimingPoint.submitEnd frameId
  comp_frame_clear_rendering s

/-- The tail of comp_renderer_draw after a successful dispatch: present the
acquired image, clear the rendered frame, run the mirror blit when it is
ready and active (its result becomes draw's result), then wait for present
with the saved desired present time.  The queue-idle wait, frame-state fini
and GPU-timestamp feedback in between have no modelled effect. -/
def comp_renderer_draw_after_dispatch (s : Sys) : XrtResult × Sys :=
  let desired := (s.rendering.map Frame.desiredPresentTimeNs).getD 0
  let s := renderer_present_swapchain_image s
  let s := comp_frame_clear_rendering s
  let m :=
    if s.mirrorReady then comp_mirror_do_blit s else (XrtResult.success, s)
  let s := renderer_wait_for_present m.2 desired
  (m.1, s)

/-- comp_renderer_draw, without the peek side channel: move the waited frame
into the rendering slot, mark begin, short-circuit with emulated submit marks
when the target is not ready, otherwise acquire if needed, dispatch, present,
clear the rendering slot, optionally mirror, and wait for present.  The third
component records whether control reached the point where the peek blit block
sits (right after a successful dispatch). -/
def comp_renderer_draw_core (s : Sys) : XrtResult × Sys × Bool :=
  let s := comp_renderer_draw_prelude s
  let frameId := renderingFrameId s
  let s := comp_target_mark_point s TimingPoint.begin frameId
  let c := comp_target_check_ready s
  if !c.1 then
    (XrtResult.success, comp_renderer_draw_not_ready c.2 frameId, false)
  else
    let s := c.2
    let s := if s.acquiredBuffer < 0 then renderer_acquire_swapchain_image s else s
    let d := dispatch s
    if d.1 ≠ VkResult.success then
      (XrtResult.errorVulkan, d.2, false)
    else
      let r := comp_renderer_draw_after_dispatch d.2
      (r.1, r.2, true)

/-!  comp_window_peek, translated from comp_window_peek.c.  The peek window
has its own comp_target (an SDL swapchain) with its own oracles; its blit
consumes only this state.  -/

/-- State of the peek window and its swapchain target, with its oracles and
an observable trace. -/
structure PeekState where
  /-- comp_window_peek::running, set by the SDL event thread. -/
  running : Bool
  /-- comp_window_peek::hidden, set by the SDL event thread. -/
  hidden : Bool
  /-- comp_window_peek::width, the current SDL window width. -/
  width : Nat
  /-- comp_window_peek::height. -/
  height : Nat
  /-- base.base.width, the extent the swapchain images were created with. -/
  swapWidth : Nat
  /-- base.base.height. -/
  swapHeight : Nat
  /-- Results of successive comp_target_check_ready polls (default true). -/
  oCheckReady : List Bool
  /-- Results of successive comp_target_acquire calls (default success, 0). -/
  oAcquire : List (VkResult × Nat)
  /-- Results of successive vkEndCommandBuffer calls. -/
  oEndCmd : List VkResult
  /-- Results of successive vk_cmd_submit_locked calls. -/
  oSubmit : List VkResult
  /-- Results of successive vkQueuePresentKHR calls. -/
  oPresent : List VkResult
  /-- Trace: number of create_images calls. -/
  createImagesCount : Nat
  /-- Trace: indices acquired, in order. -/
  acquired : List Nat
  /-- Trace: number of queue submissions. -/
  submitCount : Nat
  /-- Trace: indices presented, in order. -/
  presented : List Nat
  deriving DecidableEq, Repr

/-- The busy-wait loop while (!comp_target_check_ready(&w->base.base));
consumes readiness results until one is true; the empty-oracle default true
models the target eventually becoming ready. -/
def peekSpinUntilReady : List Bool → List Bool
  | [] => []
  | true :: rest => rest
  | false :: rest => peekSpinUntilReady rest

/-- comp_window_peek_blit: blit the scratch image into the peek swapchain and
present it; returns immediately when the window is hidden or not running, and
swallows every failure (the function returns void).  The source image and
blit rectangle have no modelled effect; the begin-command-buffer result is
assigned but never checked in the source. -/
def comp_window_peek_blit (w : PeekState) : PeekState :=
  if w.hidden ∨ w.running = false then
    w
  else
    let w :=
      if w.width ≠ w.swapWidth ∨ w.height ≠ w.swapHeight then
        { w with createImagesCount := w.createImagesCount + 1,
                 swapWidth := w.width, swapHeight := w.height }
      else
        w
    let w := { w with oCheckReady := peekSpinUntilReady w.oCheckReady }
    let a := w.oAcquire.headD (VkResult.success, 0)
    let current := a.2
    let w := { w with oAcquire := w.oAcquire.tail, acquired := w.acquired ++ [current] }
    let e := w.oEndCmd.headD VkResult.success
    let w := { w with oEndCmd := w.oEndCmd.tail }
    if e ≠ VkResult.success then
      w
    else
      let sub := w.oSubmit.headD VkResult.success
      let w := { w with oSubmit := w.oSubmit.tail, submitCount := w.submitCount + 1 }
      if sub ≠ VkResult.success then
        w
      else
        { w with oPresent := w.oPresent.tail, presented := w.presented ++ [current] }

/-- comp_renderer_draw: the per-frame entry point.  The peek blit sits inside
the frame (after a successful dispatch); it reads and writes only the peek
window's own state, which the rest of the frame never consumes, so it is
threaded through unchanged alongside the core. -/
def comp_renderer_draw (s : Sys) (p : PeekState) : XrtResult × Sys × PeekState :=
  let o := comp_renderer_draw_core s
  (o.1, o.2.1, if o.2.2 && s.peekEnabled then comp_window_peek_blit p else p)

/-!  chl_scratch, translated from the comp_high_level_scratch code appended to
comp_window_peek.c.  Vulkan resource ownership is tracked by counters: each
comp_scratch_single_images_ensure[_mutable] success and each
render_gfx_target_resources_init is one allocation, matched by the frees in
chl_scratch_free_resources.  -/

/-- Modelled from the spec: comp_scratch.h is not under src; the ring size is
a small fixed constant (spec sections 3 and 8 use ring size 3). Its exact
value does not enter any claim below. -/
def COMP_SCRATCH_NUM_IMAGES : Nat := 3

/-- VK_FORMAT_UNDEFINED as a raw VkFormat value. -/
def VK_FORMAT_UNDEFINED : Nat := 0

/-- VK_FORMAT_R8G8B8A8_SRGB as a raw VkFormat value. -/
def VK_FORMAT_R8G8B8A8_SRGB : Nat := 43

/-- The chl_scratch struct: the cached configuration plus allocation
accounting.  liveTargets counts initialized render_gfx_target_resources,
liveImages counts views whose comp_scratch_single_images hold Vulkan
resources; allocOps and freeOps are monotone counters of allocation and free
operations. -/
structure ChlScratch where
  viewCount : Nat
  extentW : Nat
  extentH : Nat
  format : Nat
  renderPassInitialized : Bool
  liveTargets : Nat
  liveImages : Nat
  allocOps : Nat
  freeOps : Nat
  deriving DecidableEq, Repr

/-- chl_scratch_free_resources: fini all target resources and free the images
of every ensured view, reset the cached configuration, then fini the shared
render pass if it was initialized. -/
def chl_scratch_free_resources (s : ChlScratch) : ChlScratch :=
  let s := { s with
    liveTargets := s.liveTargets - s.viewCount * COMP_SCRATCH_NUM_IMAGES,
    liveImages := s.liveImages - s.viewCount,
    freeOps := s.freeOps + s.viewCount * COMP_SCRATCH_NUM_IMAGES + s.viewCount,
    viewCount := 0,
    extentW := 0,
    extentH := 0,
    format := VK_FORMAT_UNDEFINED }
  if s.renderPassInitialized then
    { s with renderPassInitialized := false, freeOps := s.freeOps + 1 }
  else
    s

/-- The per-view loop of chl_scratch_ensure: ensure the images of view i
(oracle imgOk, covering comp_scratch_single_images_ensure and its _mutable
variant), init the ring of target resources for the view, and bump viewCount
so a later free releases exactly what was allocated; on failure free
everything already allocated and stop. -/
def chl_scratch_ensure_views (imgOk : Nat → Bool) : Nat → Nat → ChlScratch → Bool × ChlScratch
  | _, 0, s => (true, s)
  | i, remaining + 1, s =>
    if !imgOk i then
      (false, chl_scratch_free_resources s)
    else
      let s := { s with liveImages := s.liveImages + 1, allocOps := s.allocOps + 1 }
      let s := { s with liveTargets := s.liveTargets + COMP_SCRATCH_NUM_IMAGES,
                        allocOps := s.allocOps + COMP_SCRATCH_NUM_IMAGES }
      let s := { s with viewCount := i + 1 }
      chl_scratch_ensure_views imgOk (i + 1) remaining s

/-- The non-matching tail of chl_scratch_ensure, entered after the old
resources were freed: init the shared render pass (oracle rpOk), run the
per-view loop, and on success cache the requested extent and format. -/
def chl_scratch_ensure_alloc (rpOk : Bool) (imgOk : Nat → Bool)
    (s : ChlScratch) (view_count w h fmt : Nat) : Bool × ChlScratch :=
  if !rpOk then
    (false, s)
  else
    let s := { s with renderPassInitialized := true, allocOps := s.allocOps + 1 }
    let r := chl_scratch_ensure_views imgOk 0 view_count s
    if !r.1 then
      (false, r.2)
    else
      (true, { r.2 with extentW := w, extentH := h, format := fmt })

/-- chl_scratch_ensure: when the cached configuration already matches the
request, do nothing and return true; otherwise free all old resources first
and allocate the render pass, per-view ring images and target resources. -/
def chl_scratch_ensure (rpOk : Bool) (imgOk : Nat → Bool)
    (s : ChlScratch) (view_count w h fmt : Nat) : Bool × ChlScratch :=
  if s.viewCount = view_count ∧ s.extentW = w ∧ s.extentH = h ∧ s.format = fmt then
    (true, s)
  else
    chl_scratch_ensure_alloc rpOk imgOk (chl_scratch_free_resources s) view_count w h fmt

/-- Resource accounting consistency: the live counters match the view count
the free loop trusts.  Holds for the zero-initialized struct and is preserved
by ensure and free. -/
def ChlScratch.WellFormed (s : ChlScratch) : Prop :=
  s.liveTargets = s.viewCount * COMP_SCRATCH_NUM_IMAGES ∧ s.liveImages = s.viewCount

/-!  Rift driver, translated from rift_hmd.c.  The math uses Lean's Float in
place of C float; the claims below concern control flow, bounds and which
device state the distortion reads, not numeric accuracy.  -/

/-- Modelled from the spec and report name: rift_interface.h is not under
src; the lcsv_catmull_rom_10 model has ten segments, hence eleven spline
coefficients. -/
def CATMULL_COEFFICIENTS : Nat := 11

/-- Modelled from the header name: the version tag for the
lcsv_catmull_rom_10 distortion variant (its exact value is immaterial, only
equality with itself is tested). -/
def RIFT_LENS_DISTORTION_LCSV_CATMULL_ROM_10_VERSION_1 : Nat := 1

/-- The CLAMP helper macro. -/
def CLAMP (x lo hi : Float) : Float :=
  if x < lo then lo else if x > hi then hi else x

/-- rift_catmull_rom_distortion_data: the parsed spline coefficients.  The k
and chromatic_abberation arrays are modelled as total index functions. -/
structure RiftCatmullRomDistortionData where
  k : Nat → Float
  maxR : Float
  metersPerTanAngleAtCenter : Float
  chromaticAbberation : Nat → Float

/-- rift_lens_distortion: version tag plus the catmull-rom payload (the only
union member the source reads). -/
structure RiftLensDistortion where
  distortionVersion : Nat
  lcsvCatmullRom10 : RiftCatmullRomDistortionData

/-- The display-info fields of rift_display_info_report that the distortion
function reads (micrometers). -/
structure RiftDisplayInfo where
  displayWidth : Nat
  displayHeight : Nat
  deriving DecidableEq, Repr

/-- The rift_hmd device state: the fields the distortion reads, plus other
mutable device state it must not depend on. -/
structure RiftHmd where
  displayInfo : RiftDisplayInfo
  lensDistortions : Nat → RiftLensDistortion
  numLensDistortions : Nat
  configFlags : Nat
  lastKeepaliveTimeNs : Int
  logLevel : Nat

structure XrtVec2 where
  x : Float
  y : Float

structure XrtUvTriplet where
  r : XrtVec2
  g : XrtVec2
  b : XrtVec2

/-- rift_catmull_rom_spline: evaluate the catmull-rom segment at the scaled
radius value.  The C (int) cast of the clamped nonnegative floor is modelled
with Float.toUInt32. -/
def rift_catmull_rom_spline (catmull : RiftCatmullRomDistortionData) (scaledValue : Float) : Float :=
  let scaledValueFloor := Float.floor scaledValue
  let scaledValueFloor := CLAMP scaledValueFloor 0 (Float.ofNat (CATMULL_COEFFICIENTS - 1))
  let t := scaledValue - scaledValueFloor
  let k := scaledValueFloor.toUInt32.toNat
  let pm :=
    if k = 0 then
      (1.0, catmull.k 1 - catmull.k 0, catmull.k 1, 0.5 * (catmull.k 2 - catmull.k 0))
    else if k = CATMULL_COEFFICIENTS - 2 then
      (catmull.k (CATMULL_COEFFICIENTS - 2),
       0.5 * (catmull.k (CATMULL_COEFFICIENTS - 1) - catmull.k (CATMULL_COEFFICIENTS - 2)),
       catmull.k (CATMULL_COEFFICIENTS - 1),
       catmull.k (CATMULL_COEFFICIENTS - 1) - catmull.k (CATMULL_COEFFICIENTS - 2))
    else if k = CATMULL_COEFFICIENTS - 1 then
      let p0 := catmull.k (CATMULL_COEFFICIENTS - 1)
      let m0 := catmull.k (CATMULL_COEFFICIENTS - 1) - catmull.k (CATMULL_COEFFICIENTS - 2)
      (p0, m0, p0 + m0, m0)
    else
      (catmull.k k, 0.5 * (catmull.k (k + 1) - catmull.k (k - 1)),
       catmull.k (k + 1), 0.5 * (catmull.k (k + 2) - catmull.k k))
  let p0 := pm.1
  let m0 := pm.2.1
  let p1 := pm.2.2.1
  let m1 := pm.2.2.2
  let omt := 1.0 - t
  (p0 * (1.0 + 2.0 * t) + m0 * t) * omt * omt + (p1 * (1.0 + 2.0 * omt) - m1 * omt) * t * t

/-- rift_distortion_distance_squared: scale factor at a squared radius. -/
def rift_distortion_distance_squared (ld : RiftLensDistortion) (distanceSquared : Float) : Float :=
  if ld.distortionVersion = RIFT_LENS_DISTORTION_LCSV_CATMULL_ROM_10_VERSION_1 then
    let data := ld.lcsvCatmullRom10
    rift_catmull_rom_spline data
      (Float.ofNat (CATMULL_COEFFICIENTS - 1) * distanceSquared / (data.maxR * data.maxR))
  else
    1.0

/-- rift_distortion_distance_squared_split_chroma: per-channel scales with
chromatic aberration applied to the red and blue channels. -/
def rift_distortion_distance_squared_split_chroma (ld : RiftLensDistortion)
    (distanceSquared : Float) : Float × Float × Float :=
  let scale := rift_distortion_distance_squared ld distanceSquared
  if ld.distortionVersion = RIFT_LENS_DISTORTION_LCSV_CATMULL_ROM_10_VERSION_1 then
    let data := ld.lcsvCatmullRom10
    (scale * (1.0 + data.chromaticAbberation 0 + distanceSquared * data.chromaticAbberation 1),
     scale,
     scale * (1.0 + data.chromaticAbberation 2 + distanceSquared * data.chromaticAbberation 3))
  else
    (scale, scale, scale)

/-- rift_hmd_compute_distortion: map normalized view coordinates to distorted
per-channel coordinates.  A pure function of the device's display info and
lens_distortions[0] and of (view, u, v); the view argument is not read by the
body, the only output is the returned triplet, and the returned status is
unconditionally true. -/
def rift_hmd_compute_distortion (hmd : RiftHmd) (view : Nat) (u v : Float) :
    Bool × XrtUvTriplet :=
  let distortion := hmd.lensDistortions 0
  let displayWidthMeters := Float.ofNat hmd.displayInfo.displayWidth / 1000000.0
  let displayHeightMeters := Float.ofNat hmd.displayInfo.displayHeight / 1000000.0
  let tanEyeAngleScaleX :=
    displayWidthMeters / distortion.lcsvCatmullRom10.metersPerTanAngleAtCenter * 0.25
  let tanEyeAngleScaleY :=
    displayHeightMeters / distortion.lcsvCatmullRom10.metersPerTanAngleAtCenter * 0.5
  let u := (u * 2 - 1) * tanEyeAngleScaleX
  let v := (v * 2 - 1) * tanEyeAngleScaleY
  let distanceSquared := Float.abs (u * u + v * v)
  let c := rift_distortion_distance_squared_split_chroma distortion distanceSquared
  (true,
   { r := ⟨(u * c.1 + 1) / 2, (v * c.1 + 1) / 2⟩,
     g := ⟨(u * c.2.1 + 1) / 2, (v * c.2.1 + 1) / 2⟩,
     b := ⟨(u * c.2.2 + 1) / 2, (v * c.2.2 + 1) / 2⟩ })

/-- rift_send_report: build reportId followed by data in a fixed
reportMaxSize stack buffer with the REPORT_WRITE bounds checks, then hand the
buffer to os_hid_set_feature (result hidResult).  Returns the C return value
and the bytes passed to os_hid_set_feature (none when it was never invoked).
The buffer size REPORT_MAX_SIZE comes from the missing rift_interface.h, so
it is a parameter here; size_t arithmetic on it matches Nat subtraction
because length never exceeds the buffer size. -/
def rift_send_report (reportMaxSize : Nat) (reportId : Nat) (data : List Nat)
    (hidResult : Int) : Int × Option (List Nat) :=
  if 1 > reportMaxSize - 0 then
    (-1, none)
  else
    if data.length > reportMaxSize - 1 then
      (-1, none)
    else
      if hidResult < 0 then
        (hidResult, some (reportId :: data))
      else
        (0, some (reportId :: data))

/-!
Claims.
-/

/-- C10: rift_send_report never writes past its fixed REPORT_MAX_SIZE stack
buffer: when 1 + data_length exceeds the buffer size it returns -1 without
invoking os_hid_set_feature, and otherwise it hands os_hid_set_feature exactly
1 + data_length bytes, the report id followed by the data, which fit in the
buffer; the result is 0 on hid success and the hid error code otherwise. -/
theorem C10_send_report_bounds (reportMaxSize reportId : Nat) (data : List Nat)
    (hidResult : Int) :
    (reportMaxSize < 1 + data.length →
      rift_send_report reportMaxSize reportId data hidResult = (-1, none)) ∧
    (1 + data.length ≤ reportMaxSize →
      (rift_send_report reportMaxSize reportId data hidResult).2 = some (reportId :: data) ∧
      (reportId :: data).length = 1 + data.length ∧
      (reportId :: data).length ≤ reportMaxSize) ∧
    (1 + data.length ≤ reportMaxSize → 0 ≤ hidResult →
      rift_send_report reportMaxSize reportId data hidResult = (0, some (reportId :: data))) ∧
    (1 + data.length ≤ reportMaxSize → hidResult < 0 →
      rift_send_report reportMaxSize reportId data hidResult =
        (hidResult, some (reportId :: data))) := by
  refine ⟨?_, ?_, ?_, ?_⟩
  · intro h
    unfold rift_send_report
    rcases Nat.lt_or_ge reportMaxSize 1 with h1 | h1
    · rw [if_pos (by omega)]
    · rw [if_neg (by omega), if_pos (by omega)]
  · intro h
    unfold rift_send_report
    rw [if_neg (by omega), if_neg (by omega)]
    refine ⟨by split <;> rfl, by simp only [List.length_cons]; omega,
      by simp only [List.length_cons]; omega⟩
  · intro h hres
    unfold rift_send_report
    rw [if_neg (by omega), if_neg (by omega), if_neg (by omega)]
  · intro h hres
    unfold rift_send_report
    rw [if_neg (by omega), if_neg (by omega), if_pos hres]

/-- Witness for C10 at a concrete input. -/
theorem C10_send_report_bounds_witness :
    rift_send_report 69 5 [1, 2, 3] 0 = (0, some [5, 1, 2, 3]) :=
  (C10_send_report_bounds 69 5 [1, 2, 3] 0).2.2.1 (by decide) (by decide)

/-- Sample spline data used by witnesses. -/
def sampleCatmull : RiftCatmullRomDistortionData :=
  { k := fun _ => 1.0
    maxR := 1.0
    metersPerTanAngleAtCenter := 0.036
    chromaticAbberation := fun _ => 0.0 }

/-- Sample device state used by witnesses. -/
def sampleHmd : RiftHmd :=
  { displayInfo := ⟨125760, 70680⟩
    lensDistortions := fun _ => ⟨RIFT_LENS_DISTORTION_LCSV_CATMULL_ROM_10_VERSION_1, sampleCatmull⟩
    numLensDistortions := 1
    configFlags := 0
    lastKeepaliveTimeNs := 0
    logLevel := 0 }

/-- Sample device state differing from sampleHmd only in state the distortion
must not read. -/
def sampleHmd2 : RiftHmd :=
  { sampleHmd with configFlags := 5, lastKeepaliveTimeNs := 7, logLevel := 3 }

/-- C9: rift_hmd_compute_distortion always returns true, and its output is a
function only of the device's display info and lens_distortions[0] together
with (view, u, v): two calls on devices agreeing on that data produce equal
per-channel outputs whatever the rest of the device state (and whatever the
view index, which the body never reads).  The embedding's type shows the
function mutates nothing: its only output is the returned triplet. -/
theorem C9_distortion_pure :
    (∀ (hmd : RiftHmd) (view : Nat) (u v : Float),
      (rift_hmd_compute_distortion hmd view u v).1 = true) ∧
    (∀ (h1 h2 : RiftHmd) (view1 view2 : Nat) (u v : Float),
      h1.displayInfo = h2.displayInfo →
      h1.lensDistortions 0 = h2.lensDistortions 0 →
      rift_hmd_compute_distortion h1 view1 u v = rift_hmd_compute_distortion h2 view2 u v) := by
  constructor
  · intro hmd view u v
    rfl
  · intro h1 h2 view1 view2 u v hd hl
    unfold rift_hmd_compute_distortion
    rw [hd, hl]

/-- Witness for C9 at a concrete input. -/
theorem C9_distortion_pure_witness :
    (rift_hmd_compute_distortion sampleHmd 0 0.5 0.5).1 = true ∧
    rift_hmd_compute_distortion sampleHmd 0 0.5 0.5 =
      rift_hmd_compute_distortion sampleHmd2 1 0.5 0.5 :=
  ⟨C9_distortion_pure.1 sampleHmd 0 0.5 0.5,
   C9_distortion_pure.2 sampleHmd sampleHmd2 0 1 0.5 0.5 rfl rfl⟩

/-- On success, the per-view loop sets viewCount to cover every requested
view and leaves the cached extent, format and render-pass flag alone. -/
theorem chl_scratch_ensure_views_of_true (imgOk : Nat → Bool) :
    ∀ (rem i : Nat) (s : ChlScratch), s.viewCount = i →
      (chl_scratch_ensure_views imgOk i rem s).1 = true →
      (chl_scratch_ensure_views imgOk i rem s).2.viewCount = i + rem ∧
      (chl_scratch_ensure_views imgOk i rem s).2.extentW = s.extentW ∧
      (chl_scratch_ensure_views imgOk i rem s).2.extentH = s.extentH ∧
      (chl_scratch_ensure_views imgOk i rem s).2.format = s.format := by
  intro rem
  induction rem with
  | zero =>
    intro i s hvc _
    simp [chl_scratch_ensure_views, hvc]
  | succ n ih =>
    intro i s hvc hok
    by_cases himg : imgOk i = true
    · have hstep :
          chl_scratch_ensure_views imgOk i (n + 1) s =
            chl_scratch_ensure_views imgOk (i + 1) n
              { s with liveImages := s.liveImages + 1,
                       allocOps := s.allocOps + 1 + COMP_SCRATCH_NUM_IMAGES,
                       liveTargets := s.liveTargets + COMP_SCRATCH_NUM_IMAGES,
                       viewCount := i + 1 } := by
        simp +arith [chl_scratch_ensure_views, himg]
      rw [hstep] at hok ⊢
      have := ih (i + 1)
        { s with liveImages := s.liveImages + 1,
                 allocOps := s.allocOps + 1 + COMP_SCRATCH_NUM_IMAGES,
                 liveTargets := s.liveTargets + COMP_SCRATCH_NUM_IMAGES,
                 viewCount := i + 1 } rfl hok
      simpa +arith using this
    · simp [chl_scratch_ensure_views, himg] at hok

/-- Freeing a well-accounted scratch leaves no live resource and the reset
configuration. -/
theorem chl_scratch_free_resources_zero (s : ChlScratch)
    (ht : s.liveTargets = s.viewCount * COMP_SCRATCH_NUM_IMAGES)
    (hi : s.liveImages = s.viewCount) :
    (chl_scratch_free_resources s).viewCount = 0 ∧
    (chl_scratch_free_resources s).extentW = 0 ∧
    (chl_scratch_free_resources s).extentH = 0 ∧
    (chl_scratch_free_resources s).format = VK_FORMAT_UNDEFINED ∧
    (chl_scratch_free_resources s).renderPassInitialized = false ∧
    (chl_scratch_free_resources s).liveTargets = 0 ∧
    (chl_scratch_free_resources s).liveImages = 0 := by
  simp only [chl_scratch_free_resources]
  split <;> simp_all

/-- On failure, the per-view loop rolls the well-accounted scratch all the
way back to the freed state. -/
theorem chl_scratch_ensure_views_of_false (imgOk : Nat → Bool) :
    ∀ (rem i : Nat) (s : ChlScratch), s.viewCount = i →
      s.liveTargets = i * COMP_SCRATCH_NUM_IMAGES → s.liveImages = i →
      (chl_scratch_ensure_views imgOk i rem s).1 = false →
      (chl_scratch_ensure_views imgOk i rem s).2.viewCount = 0 ∧
      (chl_scratch_ensure_views imgOk i rem s).2.extentW = 0 ∧
      (chl_scratch_ensure_views imgOk i rem s).2.extentH = 0 ∧
      (chl_scratch_ensure_views imgOk i rem s).2.format = VK_FORMAT_UNDEFINED ∧
      (chl_scratch_ensure_views imgOk i rem s).2.renderPassInitialized = false ∧
      (chl_scratch_ensure_views imgOk i rem s).2.liveTargets = 0 ∧
      (chl_scratch_ensure_views imgOk i rem s).2.liveImages = 0 := by
  intro rem
  induction rem with
  | zero =>
    intro i s hvc ht hi hfail
    simp [chl_scratch_ensure_views] at hfail
  | succ n ih =>
    intro i s hvc ht hi hfail
    by_cases himg : imgOk i = true
    · have hstep :
          chl_scratch_ensure_views imgOk i (n + 1) s =
            chl_scratch_ensure_views imgOk (i + 1) n
              { s with liveImages := s.liveImages + 1,
                       allocOps := s.allocOps + 1 + COMP_SCRATCH_NUM_IMAGES,
                       liveTargets := s.liveTargets + COMP_SCRATCH_NUM_IMAGES,
                       viewCount := i + 1 } := by
        simp +arith [chl_scratch_ensure_views, himg]
      rw [hstep] at hfail ⊢
      exact ih (i + 1) _ rfl (by simp [ht]; ring) (by simp [hi]) hfail
    · have hstep :
          chl_scratch_ensure_views imgOk i (n + 1) s =
            (false, chl_scratch_free_resources s) := by
        simp [chl_scratch_ensure_views, himg]
      rw [hstep]
      exact chl_scratch_free_resources_zero s (by rw [ht, hvc]) (by rw [hi, hvc])

/-- C4: chl_scratch_ensure is idempotent.  When the cached configuration
matches the request it returns true with the state untouched (so no resource
is freed or allocated); when it does not match, the computation is exactly a
full free of the old resources followed by the fresh allocation; and after
one successful call a second call with the same arguments is a no-op that
returns true again, so the second call performs no allocation work (its
result state, with its allocOps counter, is the first call's state). -/
theorem C4_scratch_ensure_idempotent (rpOk : Bool) (imgOk : Nat → Bool)
    (s : ChlScratch) (view_count w h fmt : Nat) :
    (s.viewCount = view_count ∧ s.extentW = w ∧ s.extentH = h ∧ s.format = fmt →
      chl_scratch_ensure rpOk imgOk s view_count w h fmt = (true, s)) ∧
    (¬(s.viewCount = view_count ∧ s.extentW = w ∧ s.extentH = h ∧ s.format = fmt) →
      chl_scratch_ensure rpOk imgOk s view_count w h fmt =
        chl_scratch_ensure_alloc rpOk imgOk (chl_scratch_free_resources s)
          view_count w h fmt) ∧
    ((chl_scratch_ensure rpOk imgOk s view_count w h fmt).1 = true →
      chl_scratch_ensure rpOk imgOk
          (chl_scratch_ensure rpOk imgOk s view_count w h fmt).2 view_count w h fmt =
        (true, (chl_scratch_ensure rpOk imgOk s view_count w h fmt).2)) := by
  refine ⟨?_, ?_, ?_⟩
  · intro hmatch
    unfold chl_scratch_ensure
    rw [if_pos hmatch]
  · intro hmatch
    unfold chl_scratch_ensure
    rw [if_neg hmatch]
  · intro hok
    have hconf :
        (chl_scratch_ensure rpOk imgOk s view_count w h fmt).2.viewCount = view_count ∧
        (chl_scratch_ensure rpOk imgOk s view_count w h fmt).2.extentW = w ∧
        (chl_scratch_ensure rpOk imgOk s view_count w h fmt).2.extentH = h ∧
        (chl_scratch_ensure rpOk imgOk s view_count w h fmt).2.format = fmt := by
      unfold chl_scratch_ensure at hok ⊢
      by_cases hmatch :
          s.viewCount = view_count ∧ s.extentW = w ∧ s.extentH = h ∧ s.format = fmt
      · rw [if_pos hmatch] at hok ⊢
        exact hmatch
      · rw [if_neg hmatch] at hok ⊢
        unfold chl_scratch_ensure_alloc at hok ⊢
        by_cases hrp : rpOk = true
        · simp only [hrp, Bool.not_true, Bool.false_eq_true, if_false] at hok ⊢
          set s1 :=
            { chl_scratch_free_resources s with
                renderPassInitialized := true,
                allocOps := (chl_scratch_free_resources s).allocOps + 1 } with hs1
          have hvc1 : s1.viewCount = 0 := by
            simp [hs1, chl_scratch_free_resources]
            split <;> rfl
          by_cases hloop : (chl_scratch_ensure_views imgOk 0 view_count s1).1 = true
          · have := chl_scratch_ensure_views_of_true imgOk view_count 0 s1 hvc1 hloop
            simp only [hloop, Bool.not_true, Bool.false_eq_true, if_false, if_true]
            simp_all
          · simp_all
        · simp_all
    conv_lhs => rw [chl_scratch_ensure]
    rw [if_pos hconf]

/-- C5: if chl_scratch_ensure fails part-way through (the render-pass init or
the image allocation for some view), it has rolled everything back: starting
from a scratch whose resource accounting is consistent, a false return leaves
no live target resources, no live per-view images, view_count 0, a zero
extent, the undefined format and an uninitialized render pass. -/
theorem C5_scratch_ensure_rollback (rpOk : Bool) (imgOk : Nat → Bool)
    (s : ChlScratch) (view_count w h fmt : Nat)
    (hwf : s.WellFormed)
    (hfail : (chl_scratch_ensure rpOk imgOk s view_count w h fmt).1 = false) :
    (chl_scratch_ensure rpOk imgOk s view_count w h fmt).2.viewCount = 0 ∧
    (chl_scratch_ensure rpOk imgOk s view_count w h fmt).2.extentW = 0 ∧
    (chl_scratch_ensure rpOk imgOk s view_count w h fmt).2.extentH = 0 ∧
    (chl_scratch_ensure rpOk imgOk s view_count w h fmt).2.format = VK_FORMAT_UNDEFINED ∧
    (chl_scratch_ensure rpOk imgOk s view_count w h fmt).2.renderPassInitialized = false ∧
    (chl_scratch_ensure rpOk imgOk s view_count w h fmt).2.liveTargets = 0 ∧
    (chl_scratch_ensure rpOk imgOk s view_count w h fmt).2.liveImages = 0 := by
  obtain ⟨ht, hi⟩ := hwf
  have hfree := chl_scratch_free_resources_zero s ht hi
  unfold chl_scratch_ensure at hfail ⊢
  by_cases hmatch :
      s.viewCount = view_count ∧ s.extentW = w ∧ s.extentH = h ∧ s.format = fmt
  · rw [if_pos hmatch] at hfail
    simp at hfail
  · rw [if_neg hmatch] at hfail ⊢
    unfold chl_scratch_ensure_alloc at hfail ⊢
    by_cases hrp : rpOk = true
    · simp only [hrp, Bool.not_true, Bool.false_eq_true, if_false] at hfail ⊢
      set s1 :=
        { chl_scratch_free_resources s with
            renderPassInitialized := true,
            allocOps := (chl_scratch_free_resources s).allocOps + 1 } with hs1
      by_cases hloop : (chl_scratch_ensure_views imgOk 0 view_count s1).1 = true
      · simp [hloop] at hfail
      · have hloopf : (chl_scratch_ensure_views imgOk 0 view_count s1).1 = false := by
          simpa using hloop
        have := chl_scratch_ensure_views_of_false imgOk view_count 0 s1
          (by simp [hs1]; exact hfree.1) (by simp [hs1]; exact hfree.2.2.2.2.2.1)
          (by simp [hs1]; exact hfree.2.2.2.2.2.2) hloopf
        simp only [hloopf, Bool.not_false, if_true]
        simp_all
    · have hrp' : rpOk = false := by simpa using hrp
      simp only [hrp', Bool.not_false, if_true] at hfail ⊢
      exact hfree

/-- A zero-initialized chl_scratch, the state before the first ensure. -/
def emptyScratch : ChlScratch :=
  { viewCount := 0
    extentW := 0
    extentH := 0
    format := VK_FORMAT_UNDEFINED
    renderPassInitialized := false
    liveTargets := 0
    liveImages := 0
    allocOps := 0
    freeOps := 0 }

/-- An image-ensure oracle that succeeds for view 0 and fails for view 1. -/
def imgOkOnlyView0 : Nat → Bool := fun i => i == 0

/-- Witness for C4 at a concrete input: a second ensure with the arguments of
a successful first ensure is a no-op returning true. -/
theorem C4_scratch_ensure_idempotent_witness :
    chl_scratch_ensure true (fun _ => true)
        (chl_scratch_ensure true (fun _ => true) emptyScratch
          2 1000 1000 VK_FORMAT_R8G8B8A8_SRGB).2
        2 1000 1000 VK_FORMAT_R8G8B8A8_SRGB =
      (true,
        (chl_scratch_ensure true (fun _ => true) emptyScratch
          2 1000 1000 VK_FORMAT_R8G8B8A8_SRGB).2) :=
  (C4_scratch_ensure_idempotent true (fun _ => true) emptyScratch
    2 1000 1000 VK_FORMAT_R8G8B8A8_SRGB).2.2 (by decide)

/-- Witness for C5 at a concrete input: ensure fails at view 1 and leaves the
rolled-back state. -/
theorem C5_scratch_ensure_rollback_witness :
    (chl_scratch_ensure true imgOkOnlyView0 emptyScratch
        2 1000 1000 VK_FORMAT_R8G8B8A8_SRGB).2.viewCount = 0 ∧
    (chl_scratch_ensure true imgOkOnlyView0 emptyScratch
        2 1000 1000 VK_FORMAT_R8G8B8A8_SRGB).2.extentW = 0 ∧
    (chl_scratch_ensure true imgOkOnlyView0 emptyScratch
        2 1000 1000 VK_FORMAT_R8G8B8A8_SRGB).2.extentH = 0 ∧
    (chl_scratch_ensure true imgOkOnlyView0 emptyScratch
        2 1000 1000 VK_FORMAT_R8G8B8A8_SRGB).2.format = VK_FORMAT_UNDEFINED ∧
    (chl_scratch_ensure true imgOkOnlyView0 emptyScratch
        2 1000 1000 VK_FORMAT_R8G8B8A8_SRGB).2.renderPassInitialized = false ∧
    (chl_scratch_ensure true imgOkOnlyView0 emptyScratch
        2 1000 1000 VK_FORMAT_R8G8B8A8_SRGB).2.liveTargets = 0 ∧
    (chl_scratch_ensure true imgOkOnlyView0 emptyScratch
        2 1000 1000 VK_FORMAT_R8G8B8A8_SRGB).2.liveImages = 0 :=
  C5_scratch_ensure_rollback true imgOkOnlyView0 emptyScratch
    2 1000 1000 VK_FORMAT_R8G8B8A8_SRGB ⟨rfl, rfl⟩ (by decide)

/-- C8: the mirror/peek blit is best-effort and cannot fail the main path.
When the peek window is hidden or its event loop is not running,
comp_window_peek_blit returns at once with the peek state untouched: no image
is acquired, nothing is submitted, nothing is presented.  And whatever the
peek window's state and oracle results, comp_renderer_draw's returned status
and coordinator state are unchanged: no failure inside the blit propagates
out of the per-frame draw (the blit returns void and only its own state). -/
theorem C8_peek_best_effort :
    (∀ w : PeekState, w.hidden = true ∨ w.running = false →
      comp_window_peek_blit w = w) ∧
    (∀ (s : Sys) (p1 p2 : PeekState),
      (comp_renderer_draw s p1).1 = (comp_renderer_draw s p2).1 ∧
      (comp_renderer_draw s p1).2.1 = (comp_renderer_draw s p2).2.1) := by
  constructor
  · intro w hw
    unfold comp_window_peek_blit
    rw [if_pos]
    rcases hw with hw | hw <;> simp [hw]
  · intro s p1 p2
    exact ⟨rfl, rfl⟩

/-- A peek window that is running but hidden, with a pending oracle, used by
the C8 witness. -/
def hiddenPeek : PeekState :=
  { running := true
    hidden := true
    width := 100
    height := 100
    swapWidth := 50
    swapHeight := 50
    oCheckReady := [false, true]
    oAcquire := [(VkResult.errorOutOfDateKHR, 0)]
    oEndCmd := [VkResult.errorDeviceLost]
    oSubmit := [VkResult.errorDeviceLost]
    oPresent := [VkResult.errorDeviceLost]
    createImagesCount := 0
    acquired := []
    submitCount := 0
    presented := [] }

/-- Witness for C8 at a concrete input. -/
theorem C8_peek_best_effort_witness :
    comp_window_peek_blit hiddenPeek = hiddenPeek :=
  C8_peek_best_effort.1 hiddenPeek (Or.inl rfl)

/-- A quiescent coordinator state used to build concrete runs: empty oracles
(so every backend call takes its benign default), no acquired or fenced
buffer, no images yet, empty frame slots and an empty trace. -/
def baseSys : Sys :=
  { oCheckReady := []
    oAcquire := []
    oPresent := []
    oDistortion := []
    oSubmit := []
    oWaitPresent := []
    oClock := []
    oMirror := []
    useCompute := false
    waitForPresentSupported := true
    mirrorReady := false
    peekEnabled := false
    acquiredBuffer := -1
    fencedBuffer := -1
    bufferCount := 0
    targetHasImages := false
    targetImageCount := 3
    waited := none
    rendering := none
    marks := []
    createImagesCount := 0
    acquireCount := 0
    fenceWaits := []
    submitted := []
    presented := []
    warned := false
    assertFailed := false }

/-- An idle peek window state used by concrete runs. -/
def basePeek : PeekState :=
  { running := true
    hidden := false
    width := 0
    height := 0
    swapWidth := 0
    swapHeight := 0
    oCheckReady := []
    oAcquire := []
    oEndCmd := []
    oSubmit := []
    oPresent := []
    createImagesCount := 0
    acquired := []
    submitCount := 0
    presented := [] }

/-- A waited frame with id 42. -/
def frame42 : Frame :=
  { id := 42, desiredPresentTimeNs := 0, presentSlopNs := 0, predictedDisplayTimeNs := 0 }

/-- C2: the discarded-frame path of comp_renderer_draw.  When the waited
frame has been moved into the rendering slot and comp_target_check_ready then
reports not-ready, draw still marks the begin, submit-begin and submit-end
timing points for that frame's id, clears the rendering slot, performs no
acquire, no GPU submission and no present, fires no assert, and returns
XRT_SUCCESS. -/
theorem C2_discarded_frame_timing (s : Sys) (p : PeekState) (f : Frame) (rest : List Bool)
    (hw : s.waited = some f) (hr : s.rendering = none)
    (hready : s.oCheckReady = false :: rest) :
    (comp_renderer_draw s p).1 = XrtResult.success ∧
    (comp_renderer_draw s p).2.1.marks =
      s.marks ++ [(TimingPoint.begin, f.id), (TimingPoint.submitBegin, f.id),
        (TimingPoint.submitEnd, f.id)] ∧
    (comp_renderer_draw s p).2.1.rendering = none ∧
    (comp_renderer_draw s p).2.1.waited = none ∧
    (comp_renderer_draw s p).2.1.acquireCount = s.acquireCount ∧
    (comp_renderer_draw s p).2.1.submitted = s.submitted ∧
    (comp_renderer_draw s p).2.1.presented = s.presented ∧
    (comp_renderer_draw s p).2.1.assertFailed = s.assertFailed ∧
    (comp_renderer_draw s p).2.2 = p := by
  simp [comp_renderer_draw, comp_renderer_draw_core, comp_renderer_draw_prelude,
    comp_renderer_draw_not_ready, comp_frame_is_invalid, comp_frame_move_and_clear,
    comp_frame_clear_rendering, comp_target_mark_point, comp_target_check_ready,
    renderingFrameId, hw, hr, hready]

/-- A state about to draw a discarded frame: frame 42 was waited and the
target reports not-ready. -/
def c2Sys : Sys :=
  { baseSys with waited := some frame42, oCheckReady := [false] }

/-- Witness for C2 at a concrete input. -/
theorem C2_discarded_frame_timing_witness :
    (comp_renderer_draw c2Sys basePeek).1 = XrtResult.success ∧
    (comp_renderer_draw c2Sys basePeek).2.1.marks =
      c2Sys.marks ++ [(TimingPoint.begin, frame42.id), (TimingPoint.submitBegin, frame42.id),
        (TimingPoint.submitEnd, frame42.id)] ∧
    (comp_renderer_draw c2Sys basePeek).2.1.rendering = none ∧
    (comp_renderer_draw c2Sys basePeek).2.1.waited = none ∧
    (comp_renderer_draw c2Sys basePeek).2.1.acquireCount = c2Sys.acquireCount ∧
    (comp_renderer_draw c2Sys basePeek).2.1.submitted = c2Sys.submitted ∧
    (comp_renderer_draw c2Sys basePeek).2.1.presented = c2Sys.presented ∧
    (comp_renderer_draw c2Sys basePeek).2.1.assertFailed = c2Sys.assertFailed ∧
    (comp_renderer_draw c2Sys basePeek).2.2 = basePeek :=
  C2_discarded_frame_timing c2Sys basePeek frame42 [] rfl rfl rfl

/-- renderer_ensure_images_and_renderings never touches the frame slots. -/
theorem ensure_images_rendering (s : Sys) (b : Bool) :
    (renderer_ensure_images_and_renderings s b).2.rendering = s.rendering := by
  simp only [renderer_ensure_images_and_renderings, renderer_close_renderings_and_fences,
    comp_target_check_ready, comp_target_create_images, render_distortion_images_ensure]
  repeat' split
  all_goals rfl

/-- renderer_acquire_swapchain_image never touches the frame slots. -/
theorem acquire_swapchain_rendering (s : Sys) :
    (renderer_acquire_swapchain_image s).rendering = s.rendering := by
  simp only [renderer_acquire_swapchain_image, comp_target_acquire]
  repeat' split
  all_goals simp_all [ensure_images_rendering]

/-- renderer_resize never touches the frame slots. -/
theorem resize_rendering (s : Sys) :
    (renderer_resize s).rendering = s.rendering := by
  simp only [renderer_resize, renderer_close_renderings_and_fences, comp_target_check_ready]
  split <;> simp [ensure_images_rendering]

/-- renderer_present_swapchain_image never touches the frame slots. -/
theorem present_swapchain_rendering (s : Sys) :
    (renderer_present_swapchain_image s).rendering = s.rendering := by
  simp only [renderer_present_swapchain_image, comp_target_present, comp_frame_is_invalid]
  repeat' split
  all_goals simp_all [resize_rendering]

/-- renderer_submit_queue never touches the frame slots. -/
theorem submit_queue_rendering (s : Sys) :
    (renderer_submit_queue s).2.rendering = s.rendering := by
  simp only [renderer_submit_queue, renderer_wait_for_last_fence, comp_target_mark_point,
    vk_cmd_submit_locked, renderingFrameId]
  repeat' split
  all_goals rfl

/-- renderer_wait_for_present never touches the frame slots. -/
theorem wait_for_present_rendering (s : Sys) (d : Int) :
    (renderer_wait_for_present s d).rendering = s.rendering := by
  simp only [renderer_wait_for_present, comp_target_check_ready, os_monotonic_get_ns,
    comp_target_wait_for_present]
  repeat' split
  all_goals simp_all [acquire_swapchain_rendering]

/-- After a successful dispatch, the tail of draw always leaves the rendering
slot cleared. -/
theorem after_dispatch_rendering (s : Sys) :
    (comp_renderer_draw_after_dispatch s).2.rendering = none := by
  simp only [comp_renderer_draw_after_dispatch]
  rw [wait_for_present_rendering]
  split <;> rfl

/-- A run in which the GPU submission fails: the target is ready and already
acquired, and vk_cmd_submit_locked reports a device loss. -/
def c3Sys : Sys :=
  { baseSys with
      waited := some frame42
      targetHasImages := true
      bufferCount := 3
      acquiredBuffer := 0
      oSubmit := [VkResult.errorDeviceLost] }

section

set_option maxHeartbeats 4000000

/-- Counterexample to C3 as stated: on the dispatch-failure return path of
comp_renderer_draw the rendering slot is not cleared — draw returns
XRT_ERROR_VULKAN while the moved frame is still in the rendering slot. -/
theorem C3_counterexample_rendering_slot_kept :
    (comp_renderer_draw c3Sys basePeek).1 = XrtResult.errorVulkan ∧
    (comp_renderer_draw c3Sys basePeek).2.1.rendering = some frame42 ∧
    ¬ (comp_renderer_draw c3Sys basePeek).2.1.rendering = none := by
  decide

end

/-- C3 (amended): under the precondition (waited valid, rendering invalid)
the transfer into the rendering slot never trips the programming-contract
assertion, and on every return path of draw except the fatal
dispatch-failure return (XRT_ERROR_VULKAN after a failed GPU submission) the
rendering slot has been cleared; on that error path the frame is left in the
slot. -/
theorem C3_single_in_flight_amended :
    (∀ s : Sys, s.rendering = none →
      (comp_frame_move_and_clear s).assertFailed = s.assertFailed ∧
      (comp_frame_move_and_clear s).rendering = s.waited ∧
      (comp_frame_move_and_clear s).waited = none) ∧
    (∀ (s : Sys) (p : PeekState),
      (comp_renderer_draw s p).2.1.rendering = none ∨
      (comp_renderer_draw s p).1 = XrtResult.errorVulkan) := by
  constructor
  · intro s hr
    simp [comp_frame_move_and_clear, hr]
  · intro s p
    simp only [comp_renderer_draw, comp_renderer_draw_core, dispatch]
    repeat' split
    all_goals first
      | exact Or.inl rfl
      | exact Or.inr rfl
      | exact Or.inl (after_dispatch_rendering _)

/-- Witness for C3's amended theorem at a concrete input. -/
theorem C3_single_in_flight_amended_witness :
    (comp_frame_move_and_clear baseSys).assertFailed = baseSys.assertFailed ∧
    (comp_frame_move_and_clear baseSys).rendering = baseSys.waited ∧
    (comp_frame_move_and_clear baseSys).waited = none :=
  C3_single_in_flight_amended.1 baseSys rfl

/-- A run in which the first acquire reports out-of-date, the forced
recreation succeeds, and the retried acquire reports out-of-date again (the
spec's "out-of-date twice in a row" mock); every other backend call succeeds. -/
def c1Sys : Sys :=
  { baseSys with
      waited := some frame42
      targetHasImages := true
      bufferCount := 3
      oAcquire := [(VkResult.errorOutOfDateKHR, 0), (VkResult.errorOutOfDateKHR, 0)] }

section

set_option maxHeartbeats 4000000

/-- Counterexample to C1 as stated: when the retried acquire fails
(out-of-date twice in a row), the frame is not dropped — the coordinator
keeps the returned buffer index, submits the frame's GPU work and presents
it, and draw returns XRT_SUCCESS.  The forced recreation and single retry did
happen (one create_images call, two acquire calls). -/
theorem C1_counterexample_frame_not_dropped :
    (comp_renderer_draw c1Sys basePeek).2.1.acquireCount = 2 ∧
    (comp_renderer_draw c1Sys basePeek).2.1.createImagesCount = 1 ∧
    (comp_renderer_draw c1Sys basePeek).2.1.submitted = [42] ∧
    (comp_renderer_draw c1Sys basePeek).2.1.presented = [(0, 42)] ∧
    (comp_renderer_draw c1Sys basePeek).1 = XrtResult.success ∧
    ¬ ((comp_renderer_draw c1Sys basePeek).2.1.submitted = [] ∧
       (comp_renderer_draw c1Sys basePeek).2.1.presented = []) := by
  decide

end

/-- C1 (amended): stale-swapchain recovery.  On an out-of-date or suboptimal
acquire, the coordinator forces exactly one image recreation (one
create_images call) and retries the acquire exactly once, keeping the retried
call's buffer index whatever its status — a failed retry is only logged, the
frame proceeds with that index rather than being dropped (see the
counterexample).  On an out-of-date or suboptimal present, the coordinator
recreates the images via the resize path, drops the acquired index, and
surfaces no error.  No assert fires on either path. -/
theorem C1_stale_recovery_amended :
    (∀ (s : Sys) (st ret2 : VkResult) (i j : Nat)
        (restReady : List Bool) (restAcq : List (VkResult × Nat)) (restDist : List Bool),
      s.acquiredBuffer < 0 →
      s.targetHasImages = true →
      s.bufferCount ≠ 0 →
      s.targetImageCount ≠ 0 →
      s.oCheckReady = true :: true :: restReady →
      s.oAcquire = (st, i) :: (ret2, j) :: restAcq →
      s.oDistortion = true :: restDist →
      (st = VkResult.errorOutOfDateKHR ∨ st = VkResult.suboptimalKHR) →
      (renderer_acquire_swapchain_image s).createImagesCount = s.createImagesCount + 1 ∧
      (renderer_acquire_swapchain_image s).acquireCount = s.acquireCount + 2 ∧
      (renderer_acquire_swapchain_image s).acquiredBuffer = Int.ofNat j ∧
      (renderer_acquire_swapchain_image s).assertFailed = s.assertFailed) ∧
    (∀ (s : Sys) (f : Frame) (st : VkResult)
        (restReady : List Bool) (restPres : List VkResult) (restDist : List Bool),
      s.rendering = some f →
      s.targetImageCount ≠ 0 →
      s.oPresent = st :: restPres →
      s.oCheckReady = true :: true :: restReady →
      s.oDistortion = true :: restDist →
      (st = VkResult.errorOutOfDateKHR ∨ st = VkResult.suboptimalKHR) →
      (renderer_present_swapchain_image s).createImagesCount = s.createImagesCount + 1 ∧
      (renderer_present_swapchain_image s).acquiredBuffer = -1 ∧
      (renderer_present_swapchain_image s).presented =
        s.presented ++ [(s.acquiredBuffer, f.id)] ∧
      (renderer_present_swapchain_image s).assertFailed = s.assertFailed) := by
  constructor
  · intro s st ret2 i j restReady restAcq restDist
      hacq himg hbc hic hready hoacq hdist hst
    have hbc' : (s.bufferCount == 0) = false := by simpa using hbc
    have hic' : (s.targetImageCount == 0) = false := by simpa using hic
    have hacq' : ¬ 0 ≤ s.acquiredBuffer := by omega
    rcases hst with hst | hst <;>
      simp [renderer_acquire_swapchain_image, renderer_ensure_images_and_renderings,
        renderer_close_renderings_and_fences, comp_target_check_ready, comp_target_acquire,
        comp_target_create_images, render_distortion_images_ensure, hacq', himg, hbc', hic',
        hready, hoacq, hdist, hst]
  · intro s f st restReady restPres restDist hrend hic hpres hready hdist hst
    have hic' : (s.targetImageCount == 0) = false := by simpa using hic
    rcases hst with hst | hst <;>
      simp [renderer_present_swapchain_image, renderer_resize,
        renderer_ensure_images_and_renderings, renderer_close_renderings_and_fences,
        comp_target_check_ready, comp_target_present, comp_target_create_images,
        render_distortion_images_ensure, comp_frame_is_invalid, renderingFrameId,
        hrend, hic', hpres, hready, hdist, hst]

/-- A state about to acquire with a stale first acquire and a successful
retry. -/
def c1AcquireSys : Sys :=
  { baseSys with
      targetHasImages := true
      bufferCount := 3
      oCheckReady := [true, true]
      oAcquire := [(VkResult.errorOutOfDateKHR, 0), (VkResult.success, 1)]
      oDistortion := [true] }

/-- Witness for C1's amended theorem at a concrete input. -/
theorem C1_stale_recovery_amended_witness :
    (renderer_acquire_swapchain_image c1AcquireSys).createImagesCount =
      c1AcquireSys.createImagesCount + 1 ∧
    (renderer_acquire_swapchain_image c1AcquireSys).acquireCount =
      c1AcquireSys.acquireCount + 2 ∧
    (renderer_acquire_swapchain_image c1AcquireSys).acquiredBuffer = Int.ofNat 1 ∧
    (renderer_acquire_swapchain_image c1AcquireSys).assertFailed =
      c1AcquireSys.assertFailed :=
  C1_stale_recovery_amended.1 c1AcquireSys VkResult.errorOutOfDateKHR VkResult.success 0 1
    [] [] [] (by decide) rfl (by decide) (by decide) rfl rfl rfl (Or.inl rfl)

/-- C6: fence-based buffer reuse in renderer_submit_queue.  Before the
submission the only fence waited on is the one belonging to the previously
submitted buffer index (fenced_buffer) — when no buffer has a pending fence,
no fence is waited on at all, so the current frame's own not-yet-submitted
fence is never waited on; after a successful submission the acquired buffer
index becomes the fenced buffer (and on a failed submission no buffer is
marked fenced), so a buffer's resources are reused only after its previous
fence was waited on. -/
theorem C6_fence_reuse (s : Sys) (f : Frame)
    (hr : s.rendering = some f) (hid : 0 ≤ f.id) (hacq : 0 ≤ s.acquiredBuffer) :
    (renderer_submit_queue s).2.fenceWaits =
      s.fenceWaits ++ (if s.fencedBuffer < 0 then [] else [s.fencedBuffer]) ∧
    ((renderer_submit_queue s).1 = VkResult.success →
      (renderer_submit_queue s).2.fencedBuffer = s.acquiredBuffer) ∧
    ((renderer_submit_queue s).1 ≠ VkResult.success →
      (renderer_submit_queue s).2.fencedBuffer < 0) ∧
    (renderer_submit_queue s).2.submitted = s.submitted ++ [f.id] ∧
    (renderer_submit_queue s).2.assertFailed = s.assertFailed := by
  have hid' : ¬ f.id < 0 := by omega
  have hacq' : ¬ s.acquiredBuffer < 0 := by omega
  by_cases hfb : s.fencedBuffer < 0
  · have hwait : renderer_wait_for_last_fence s = s := by
      unfold renderer_wait_for_last_fence
      rw [if_pos hfb]
    by_cases hsub : s.oSubmit.head?.getD VkResult.success = VkResult.success <;>
      simp [renderer_submit_queue, renderingFrameId, hr, hid', hwait, hacq', hfb, hsub,
        comp_target_mark_point, vk_cmd_submit_locked]
  · have hwait : renderer_wait_for_last_fence s =
        { s with fenceWaits := s.fenceWaits ++ [s.fencedBuffer], fencedBuffer := -1 } := by
      unfold renderer_wait_for_last_fence
      rw [if_neg hfb]
    by_cases hsub : s.oSubmit.head?.getD VkResult.success = VkResult.success <;>
      simp [renderer_submit_queue, renderingFrameId, hr, hid', hwait, hacq', hfb, hsub,
        comp_target_mark_point, vk_cmd_submit_locked]

/-- A state ready to submit: frame 42 is rendering, buffer 0 is acquired and
buffer 1 holds the previous submission's pending fence. -/
def c6Sys : Sys :=
  { baseSys with
      rendering := some frame42
      acquiredBuffer := 0
      fencedBuffer := 1 }

/-- Witness for C6 at a concrete input. -/
theorem C6_fence_reuse_witness :
    (renderer_submit_queue c6Sys).2.fenceWaits =
      c6Sys.fenceWaits ++ (if c6Sys.fencedBuffer < 0 then [] else [c6Sys.fencedBuffer]) ∧
    ((renderer_submit_queue c6Sys).1 = VkResult.success →
      (renderer_submit_queue c6Sys).2.fencedBuffer = c6Sys.acquiredBuffer) ∧
    ((renderer_submit_queue c6Sys).1 ≠ VkResult.success →
      (renderer_submit_queue c6Sys).2.fencedBuffer < 0) ∧
    (renderer_submit_queue c6Sys).2.submitted = c6Sys.submitted ++ [frame42.id] ∧
    (renderer_submit_queue c6Sys).2.assertFailed = c6Sys.assertFailed :=
  C6_fence_reuse c6Sys frame42 rfl (by decide) (by decide)

/-- A wait-for-present run whose completion is more than 1ms past the desired
present time of 0, but whose wait itself took less than 1ms (the two clock
reads are 2000000 and 2000001). -/
def c7Sys : Sys :=
  { baseSys with oClock := [2000000, 2000001] }

/-- Counterexample to C7 as stated: the completion time after the wait
(2000001 ns) exceeds the desired present time (0) by more than one
millisecond, yet no missed-frame warning is logged, because the code also
requires the wait itself to have taken more than one millisecond. -/
theorem C7_counterexample_warning_needs_minimum_wait :
    (0 : Int) + U_TIME_1MS_IN_NS < 2000001 ∧
    (renderer_wait_for_present c7Sys 0).warned = false := by
  decide

/-- C7 (amended): after the wait-for-present phase the coordinator logs the
missed-frame warning — and neither raises nor returns an error (the function
returns only the state, and no assert fires when the backend wait result is
meaningful) — if and only if the wait took more than one millisecond and the
completion time after the wait exceeds the desired present time by more than
one millisecond. -/
theorem C7_missed_deadline_amended (s : Sys) (desired beforeNs afterNs : Int)
    (wres : VkResult) (restReady : List Bool) (restWait : List VkResult) (restClk : List Int)
    (hready : s.oCheckReady = true :: restReady)
    (hclk : s.oClock = beforeNs :: afterNs :: restClk)
    (hsup : s.waitForPresentSupported = true)
    (hw : s.oWaitPresent = wres :: restWait)
    (hwres : wres ≠ VkResult.errorExtensionNotPresent)
    (hwarn : s.warned = false) :
    ((renderer_wait_for_present s desired).warned = true ↔
      (beforeNs + U_TIME_1MS_IN_NS < afterNs ∧ desired + U_TIME_1MS_IN_NS < afterNs)) ∧
    (renderer_wait_for_present s desired).assertFailed = s.assertFailed := by
  by_cases h1 : beforeNs + U_TIME_1MS_IN_NS < afterNs <;>
  by_cases h2 : desired + U_TIME_1MS_IN_NS < afterNs <;>
    simp [renderer_wait_for_present, comp_target_check_ready, os_monotonic_get_ns,
      comp_target_wait_for_present, hready, hclk, hsup, hw, hwres, hwarn, h1, h2]

/-- A wait-for-present run that misses the deadline: the wait ran from 0 to
5000000 ns against a desired present time of 1000000 ns. -/
def c7LateSys : Sys :=
  { baseSys with
      oCheckReady := [true]
      oWaitPresent := [VkResult.success]
      oClock := [0, 5000000] }

/-- Witness for C7's amended theorem at a concrete input. -/
theorem C7_missed_deadline_amended_witness :
    ((renderer_wait_for_present c7LateSys 1000000).warned = true ↔
      ((0 : Int) + U_TIME_1MS_IN_NS < 5000000 ∧
        (1000000 : Int) + U_TIME_1MS_IN_NS < 5000000)) ∧
    (renderer_wait_for_present c7LateSys 1000000).assertFailed = c7LateSys.assertFailed :=
  C7_missed_deadline_amended c7LateSys 1000000 0 5000000 VkResult.success [] [] []
    rfl rfl rfl rfl (by decide) rfl


